import Mathlib

/-!
Verification development for the PoseGuard AI repository
(`backend/main.py` and `backend/live-webCam/app_realtime (1).py`).

The Python source is shallowly embedded: pixel coordinates and confidences
(floats in the source) become rationals, joint angles (computed through
`arccos`/`atan2`) become real numbers, integer risk levels become naturals,
and the per-frame/pipeline loops become structural recursion over lists.
Python `int()` truncation, `round()` banker rounding, `//` floor division
and `%` modulo are modelled explicitly.
-/

/-- The nine risk-factor names, the keys of the backend `risks` dict in
`analyze_person` (`main.py`). -/
inductive Factor
  | L_ACL
  | R_ACL
  | L_Hip
  | R_Hip
  | Trunk
  | Shoulder_Asym
  | Hip_Asym
  | L_Ankle
  | R_Ankle
deriving DecidableEq, Repr, Fintype

/-- The factors in the order the backend source declares their weights. -/
def FACTORS : List Factor :=
  [.L_ACL, .R_ACL, .L_Hip, .R_Hip, .Trunk, .Shoulder_Asym, .Hip_Asym, .L_Ankle, .R_Ankle]

/-- The composite weights of `analyze_person` (`main.py` lines 216-222). -/
def weights : Factor → ℚ
  | .L_ACL => 0.25
  | .R_ACL => 0.25
  | .L_Hip => 0.10
  | .R_Hip => 0.10
  | .Trunk => 0.12
  | .Shoulder_Asym => 0.05
  | .Hip_Asym => 0.05
  | .L_Ankle => 0.04
  | .R_Ankle => 0.04

/-- Python `int()` applied to a rational: truncation toward zero. -/
def pyInt (q : ℚ) : ℤ := if 0 ≤ q then ⌊q⌋ else ⌈q⌉

/-- The composite-score computation of `analyze_person` (`main.py` lines
223-229) as a function of the per-factor risks dict: sum the weights of the
present factors, divide the weighted risk sum by it when positive, truncate
with `int()` and clamp with `min(·, 100)`. -/
def compositeScore (risks : Factor → Option ℕ) : ℤ :=
  let total_weight : ℚ := (FACTORS.filterMap fun f => ((risks f).map fun _ => weights f)).sum
  let weighted_sum : ℚ := (FACTORS.filterMap fun f => ((risks f).map fun r : ℕ => (r : ℚ) * weights f)).sum
  let composite : ℚ := if 0 < total_weight then weighted_sum / total_weight else 0
  min (pyInt composite) 100

/-- The risk level of a present factor, `0` for an absent one. -/
def riskVal (risks : Factor → Option ℕ) (f : Factor) : ℚ := ((risks f).getD 0 : ℕ)

/-- The composite score as the spec states it: the weighted mean over the set
of present factors, truncated and clamped, and `0` when no factor is present.
Written independently of `compositeScore` (a `Finset` mean over the present
set rather than the source's guarded dict comprehension). -/
def compositeSpec (risks : Factor → Option ℕ) : ℤ :=
  let present : Finset Factor := Finset.univ.filter fun f => (risks f).isSome
  if present = ∅ then 0
  else
    min (pyInt ((present.sum fun f => riskVal risks f * weights f) / present.sum weights)) 100

lemma weights_pos (f : Factor) : 0 < weights f := by
  cases f <;> norm_num [weights]

lemma mem_FACTORS (f : Factor) : f ∈ FACTORS := by
  cases f <;> simp [FACTORS]

lemma FACTORS_nodup : FACTORS.Nodup := by decide

lemma univ_eq_FACTORS_toFinset : (Finset.univ : Finset Factor) = FACTORS.toFinset := by
  apply Finset.ext
  intro f
  simp [mem_FACTORS f]

/-- Sum over the present-filtered factor list, rewritten through `getD`. -/
lemma filterMap_risks_sum (risks : Factor → Option ℕ) (g : Factor → ℕ → ℚ) :
    ∀ l : List Factor,
      (l.filterMap fun f => ((risks f).map fun r => g f r)).sum
        = ((l.filter fun f => (risks f).isSome).map fun f => g f ((risks f).getD 0)).sum := by
  intro l
  induction l with
  | nil => simp
  | cons a l ih =>
    cases h : risks a with
    | none => simpa [List.filterMap_cons, List.filter_cons, h] using ih
    | some r => simp [List.filterMap_cons, List.filter_cons, h, ih]

lemma filter_map_sum_eq_finset_sum (p : Factor → Bool) (g : Factor → ℚ) :
    ((FACTORS.filter p).map g).sum = (Finset.univ.filter fun f => p f).sum g := by
  rw [univ_eq_FACTORS_toFinset, ← List.toFinset_filter,
    List.sum_toFinset _ (List.Nodup.filter _ FACTORS_nodup)]

lemma total_weight_eq (risks : Factor → Option ℕ) :
    (FACTORS.filterMap fun f => ((risks f).map fun _ => weights f)).sum
      = (Finset.univ.filter fun f => (risks f).isSome).sum weights := by
  rw [filterMap_risks_sum risks (fun f _r => weights f) FACTORS,
    filter_map_sum_eq_finset_sum]

lemma weighted_sum_eq (risks : Factor → Option ℕ) :
    (FACTORS.filterMap fun f => ((risks f).map fun r : ℕ => (r : ℚ) * weights f)).sum
      = (Finset.univ.filter fun f => (risks f).isSome).sum fun f => riskVal risks f * weights f := by
  rw [filterMap_risks_sum risks (fun f r => (r : ℚ) * weights f) FACTORS,
    filter_map_sum_eq_finset_sum]
  rfl

lemma total_weight_pos_iff (risks : Factor → Option ℕ) :
    0 < (Finset.univ.filter fun f => (risks f).isSome).sum weights
      ↔ (Finset.univ.filter fun f => (risks f).isSome) ≠ ∅ := by
  constructor
  · intro h he
    rw [he] at h
    simp at h
  · intro h
    obtain ⟨f, hf⟩ := Finset.nonempty_iff_ne_empty.mpr h
    exact Finset.sum_pos' (fun i _ => (weights_pos i).le) ⟨f, hf, weights_pos f⟩

/-- The code's composite equals the spec's weighted mean over present factors. -/
lemma compositeScore_eq_spec (risks : Factor → Option ℕ) :
    compositeScore risks = compositeSpec risks := by
  simp only [compositeScore, compositeSpec]
  rw [total_weight_eq, weighted_sum_eq]
  by_cases h : (Finset.univ.filter fun f => (risks f).isSome) = ∅
  · simp [h, pyInt]
  · rw [if_neg h, if_pos ((total_weight_pos_iff risks).mpr h)]

/-- A 2D pixel point (float coordinates in the source, rationals here). -/
abbrev Pt := ℚ × ℚ

/-- Constant `CONF_THRESH = 0.5` (`main.py` line 37). -/
def CONF_THRESH : ℚ := 0.5

/-- Predicate `is_visible(kp)` (`main.py` line 114): both coordinates strictly positive. -/
def is_visible (kp : Pt) : Bool := decide (0 < kp.1) && decide (0 < kp.2)

/-- The local `kp(idx)` helper of `analyze_person` (`main.py` line 126):
the keypoint if its confidence exceeds the threshold and it is visible,
otherwise `None`. -/
def kpSel (person_kp : Fin 17 → Pt) (person_conf : Fin 17 → ℚ) (idx : Fin 17) : Option Pt :=
  if CONF_THRESH < person_conf idx ∧ is_visible (person_kp idx) = true then some (person_kp idx)
  else none

/-- The value `np.linalg.norm(a - b)`, the length of the arm from `b` to `a`. -/
noncomputable def normArm (a b : Pt) : ℝ :=
  Real.sqrt ((((a.1 - b.1 : ℚ) : ℝ)) ^ 2 + (((a.2 - b.2 : ℚ) : ℝ)) ^ 2)

/-- The dot product `np.dot(a - b, c - b)`. -/
def dotArm (a b c : Pt) : ℚ :=
  (a.1 - b.1) * (c.1 - b.1) + (a.2 - b.2) * (c.2 - b.2)

/-- The value `np.clip(x, -1.0, 1.0)`. -/
noncomputable def clip (x : ℝ) : ℝ := max (-1) (min x 1)

/-- Function `calculate_angle(a, b, c)` (`main.py` lines 94-102): the angle at joint `b`
in degrees, `180` when either arm has zero length. -/
noncomputable def calculate_angle (a b c : Pt) : ℝ :=
  if normArm a b = 0 ∨ normArm c b = 0 then 180
  else Real.arccos (clip ((dotArm a b c : ℝ) / (normArm a b * normArm c b))) * (180 / Real.pi)

/-- Library function `math.atan2(y, x)`, modelled by its standard mathematical case split. -/
noncomputable def atan2 (y x : ℝ) : ℝ :=
  if 0 < x then Real.arctan (y / x)
  else if x < 0 ∧ 0 ≤ y then Real.arctan (y / x) + Real.pi
  else if x < 0 ∧ y < 0 then Real.arctan (y / x) - Real.pi
  else if x = 0 ∧ 0 < y then Real.pi / 2
  else if x = 0 ∧ y < 0 then -(Real.pi / 2)
  else 0

/-- Function `trunk_lean_angle(shoulder_mid, hip_mid)` (`main.py` lines 105-111):
the torso line's angle from vertical, `0` when the vertical offset is zero. -/
noncomputable def trunk_lean_angle (shoulder_mid hip_mid : Pt) : ℝ :=
  let dx := hip_mid.1 - shoulder_mid.1
  let dy := hip_mid.2 - shoulder_mid.2
  if dy = 0 then 0
  else |atan2 ((dx : ℝ)) ((dy : ℝ)) * (180 / Real.pi)|

/-- The knee-angle risk bands of factors `L_ACL`/`R_ACL`
(`main.py` lines 138-141). -/
noncomputable def aclRisk (angle : ℝ) : ℕ :=
  if angle < 120 then 90 else if angle < 140 then 60 else if angle < 160 then 30 else 0

/-- The hip-angle risk bands of factors `L_Hip`/`R_Hip`
(`main.py` lines 156-159). -/
noncomputable def hipRisk (angle : ℝ) : ℕ :=
  if angle < 100 then 80 else if angle < 130 then 45 else if angle < 150 then 20 else 0

/-- The trunk-lean risk bands of factor `Trunk` (`main.py` lines 178-181). -/
noncomputable def trunkRisk (lean : ℝ) : ℕ :=
  if 35 < lean then 75 else if 25 < lean then 50 else if 15 < lean then 25 else 0

/-- The vertical-difference risk bands of `Shoulder_Asym`/`Hip_Asym`
(`main.py` lines 186-189). -/
def asymRisk (diff : ℚ) : ℕ :=
  if 40 < diff then 70 else if 25 < diff then 40 else if 15 < diff then 20 else 0

/-- The ankle-angle risk bands of `L_Ankle`/`R_Ankle`
(`main.py` lines 203-205). -/
noncomputable def ankleRisk (angle : ℝ) : ℕ :=
  if 120 < angle then 60 else if 110 < angle then 30 else 0

/-- The per-factor risks dict built by `analyze_person` (`main.py` lines
118-213).  Keypoint indices: shoulders 5/6, hips 11/12, knees 13/14,
ankles 15/16.  A factor is present exactly when every keypoint it needs is
usable. -/
noncomputable def analyze_person_risks (person_kp : Fin 17 → Pt) (person_conf : Fin 17 → ℚ) :
    Factor → Option ℕ :=
  let kp := kpSel person_kp person_conf
  fun f =>
    match f with
    | .L_ACL =>
      match kp 11, kp 13, kp 15 with
      | some l_hip, some l_knee, some l_ankle =>
        some (aclRisk (calculate_angle l_hip l_knee l_ankle))
      | _, _, _ => none
    | .R_ACL =>
      match kp 12, kp 14, kp 16 with
      | some r_hip, some r_knee, some r_ankle =>
        some (aclRisk (calculate_angle r_hip r_knee r_ankle))
      | _, _, _ => none
    | .L_Hip =>
      match kp 5, kp 11, kp 13 with
      | some l_shoulder, some l_hip, some l_knee =>
        some (hipRisk (calculate_angle l_shoulder l_hip l_knee))
      | _, _, _ => none
    | .R_Hip =>
      match kp 6, kp 12, kp 14 with
      | some r_shoulder, some r_hip, some r_knee =>
        some (hipRisk (calculate_angle r_shoulder r_hip r_knee))
      | _, _, _ => none
    | .Trunk =>
      match kp 5, kp 6, kp 11, kp 12 with
      | some l_shoulder, some r_shoulder, some l_hip, some r_hip =>
        some (trunkRisk (trunk_lean_angle
          ((l_shoulder.1 + r_shoulder.1) / 2, (l_shoulder.2 + r_shoulder.2) / 2)
          ((l_hip.1 + r_hip.1) / 2, (l_hip.2 + r_hip.2) / 2)))
      | _, _, _, _ => none
    | .Shoulder_Asym =>
      match kp 5, kp 6 with
      | some l_shoulder, some r_shoulder => some (asymRisk |l_shoulder.2 - r_shoulder.2|)
      | _, _ => none
    | .Hip_Asym =>
      match kp 11, kp 12 with
      | some l_hip, some r_hip => some (asymRisk |l_hip.2 - r_hip.2|)
      | _, _ => none
    | .L_Ankle =>
      match kp 13, kp 15 with
      | some l_knee, some l_ankle =>
        some (ankleRisk (calculate_angle l_knee l_ankle
          (l_ankle.1 + (l_ankle.1 - l_knee.1) * 0.3, l_ankle.2 + 30)))
      | _, _ => none
    | .R_Ankle =>
      match kp 14, kp 16 with
      | some r_knee, some r_ankle =>
        some (ankleRisk (calculate_angle r_knee r_ankle
          (r_ankle.1 + (r_ankle.1 - r_knee.1) * 0.3, r_ankle.2 + 30)))
      | _, _ => none

/-- The keys of the `details` dict of `analyze_person`. -/
inductive DKey
  | L_Knee
  | R_Knee
  | L_Hip
  | R_Hip
  | Trunk
deriving DecidableEq, Repr

/-- The raw-angle `details` dict built by `analyze_person`. -/
noncomputable def analyze_person_details (person_kp : Fin 17 → Pt) (person_conf : Fin 17 → ℚ) :
    DKey → Option ℝ :=
  let kp := kpSel person_kp person_conf
  fun k =>
    match k with
    | .L_Knee =>
      match kp 11, kp 13, kp 15 with
      | some l_hip, some l_knee, some l_ankle => some (calculate_angle l_hip l_knee l_ankle)
      | _, _, _ => none
    | .R_Knee =>
      match kp 12, kp 14, kp 16 with
      | some r_hip, some r_knee, some r_ankle => some (calculate_angle r_hip r_knee r_ankle)
      | _, _, _ => none
    | .L_Hip =>
      match kp 5, kp 11, kp 13 with
      | some l_shoulder, some l_hip, some l_knee => some (calculate_angle l_shoulder l_hip l_knee)
      | _, _, _ => none
    | .R_Hip =>
      match kp 6, kp 12, kp 14 with
      | some r_shoulder, some r_hip, some r_knee => some (calculate_angle r_shoulder r_hip r_knee)
      | _, _, _ => none
    | .Trunk =>
      match kp 5, kp 6, kp 11, kp 12 with
      | some l_shoulder, some r_shoulder, some l_hip, some r_hip =>
        some (trunk_lean_angle
          ((l_shoulder.1 + r_shoulder.1) / 2, (l_shoulder.2 + r_shoulder.2) / 2)
          ((l_hip.1 + r_hip.1) / 2, (l_hip.2 + r_hip.2) / 2))
      | _, _, _, _ => none

/-- Function `analyze_person` (`main.py` lines 118-229): the risks dict, the composite
score and the raw-angle details for one detected person. -/
noncomputable def analyze_person (person_kp : Fin 17 → Pt) (person_conf : Fin 17 → ℚ) :
    (Factor → Option ℕ) × ℤ × (DKey → Option ℝ) :=
  (analyze_person_risks person_kp person_conf,
   compositeScore (analyze_person_risks person_kp person_conf),
   analyze_person_details person_kp person_conf)

/-- A zero-length first arm forces the `180` branch of `calculate_angle`. -/
lemma calculate_angle_left_zero (a b c : Pt) (h : a = b) : calculate_angle a b c = 180 := by
  have hn : normArm a b = 0 := by
    simp [normArm, h]
  simp [calculate_angle, hn]

/-- A zero-length second arm forces the `180` branch of `calculate_angle`. -/
lemma calculate_angle_right_zero (a b c : Pt) (h : c = b) : calculate_angle a b c = 180 := by
  have hn : normArm c b = 0 := by
    simp [normArm, h]
  simp [calculate_angle, hn]

/-- C1: for every person pose the composite returned by `analyze_person` is
the weighted sum of only the present factors divided by the sum of those
factors' weights, truncated to integer and clamped to at most 100; with only
`Trunk` present at risk 75 the composite is 75, and with no factor present it
is 0. -/
theorem composite_is_clamped_weighted_mean_of_present :
    (∀ person_kp person_conf,
        (analyze_person person_kp person_conf).2.1
          = compositeScore (analyze_person person_kp person_conf).1)
  ∧ (∀ risks : Factor → Option ℕ, compositeScore risks = compositeSpec risks)
  ∧ compositeScore (fun f => if f = .Trunk then some 75 else none) = 75
  ∧ compositeScore (fun _ => none) = 0 := by
  refine ⟨fun _ _ => rfl, compositeScore_eq_spec, ?_, ?_⟩
  · simp [compositeScore, FACTORS]
    norm_num [weights, pyInt]
  · simp [compositeScore, FACTORS]
    norm_num [pyInt]

lemma normArm_unit_vert : normArm (0, 1) (0, 0) = 1 := by
  norm_num [normArm]

lemma normArm_unit_vert_neg : normArm (0, -1) (0, 0) = 1 := by
  norm_num [normArm]

lemma normArm_unit_horiz : normArm (1, 0) (0, 0) = 1 := by
  norm_num [normArm]

lemma pi_ne_zero' : Real.pi ≠ 0 := ne_of_gt Real.pi_pos

/-- C5: `calculate_angle` computes `degrees(arccos(clip(dot/(|ba||bc|))))`,
yields 180 for opposite colinear points, 90 for a right angle, and 180 when an
arm has zero length. -/
theorem calculate_angle_formula_and_values :
    calculate_angle (0, 1) (0, 0) (0, -1) = 180
  ∧ calculate_angle (1, 0) (0, 0) (0, 1) = 90
  ∧ (∀ a c : Pt, calculate_angle a a c = 180)
  ∧ (∀ a b c : Pt, normArm a b ≠ 0 → normArm c b ≠ 0 →
      calculate_angle a b c
        = Real.arccos (clip ((dotArm a b c : ℝ) / (normArm a b * normArm c b)))
            * (180 / Real.pi)) := by
  refine ⟨?_, ?_, fun a c => calculate_angle_left_zero a a c rfl, ?_⟩
  · rw [calculate_angle, if_neg]
    · have hd : ((dotArm (0, 1) (0, 0) (0, -1) : ℚ) : ℝ) = -1 := by
        norm_num [dotArm]
      rw [normArm_unit_vert, normArm_unit_vert_neg, hd]
      have hc : clip ((-1 : ℝ) / (1 * 1)) = -1 := by
        norm_num [clip]
      rw [hc, Real.arccos_neg_one]
      field_simp
    · rw [normArm_unit_vert, normArm_unit_vert_neg]
      norm_num
  · rw [calculate_angle, if_neg]
    · have hd : ((dotArm (1, 0) (0, 0) (0, 1) : ℚ) : ℝ) = 0 := by
        norm_num [dotArm]
      rw [normArm_unit_horiz, normArm_unit_vert, hd]
      have hc : clip ((0 : ℝ) / (1 * 1)) = 0 := by
        norm_num [clip]
      rw [hc, Real.arccos_zero]
      field_simp
      ring
    · rw [normArm_unit_horiz, normArm_unit_vert]
      norm_num
  · intro a b c h1 h2
    rw [calculate_angle, if_neg]
    simp [h1, h2]

/-- Witness for the guarded formula conjunct of C5, at the right-angle
configuration. -/
theorem calculate_angle_formula_witness :
    calculate_angle (1, 0) (0, 0) (0, 1)
      = Real.arccos (clip ((dotArm (1, 0) (0, 0) (0, 1) : ℝ)
          / (normArm (1, 0) (0, 0) * normArm (0, 1) (0, 0)))) * (180 / Real.pi) :=
  calculate_angle_formula_and_values.2.2.2 (1, 0) (0, 0) (0, 1)
    (by rw [normArm_unit_horiz]; norm_num)
    (by rw [normArm_unit_vert]; norm_num)

/-- C4: whenever the left hip, knee and ankle are usable, the `L_ACL` risk is
the band function of the knee joint angle, and that band function maps
119/120/139/140/159/160 degrees to 90/60/60/30/30/0. -/
theorem L_ACL_band_of_knee_angle :
    (∀ person_kp person_conf l_hip l_knee l_ankle,
        kpSel person_kp person_conf 11 = some l_hip →
        kpSel person_kp person_conf 13 = some l_knee →
        kpSel person_kp person_conf 15 = some l_ankle →
        analyze_person_risks person_kp person_conf .L_ACL
          = some (aclRisk (calculate_angle l_hip l_knee l_ankle)))
  ∧ aclRisk 119 = 90 ∧ aclRisk 120 = 60 ∧ aclRisk 139 = 60
  ∧ aclRisk 140 = 30 ∧ aclRisk 159 = 30 ∧ aclRisk 160 = 0 := by
  refine ⟨?_, ?_, ?_, ?_, ?_, ?_, ?_⟩
  · intro pkp pconf lh lk la h11 h13 h15
    simp [analyze_person_risks, h11, h13, h15]
  all_goals norm_num [aclRisk]

/-- A pose whose 17 keypoints all sit at (1, 1) with confidence 1. -/
def unitPoseKp : Fin 17 → Pt := fun _ => (1, 1)

/-- Full confidence for every keypoint. -/
def unitPoseConf : Fin 17 → ℚ := fun _ => 1

lemma unitPose_kpSel (i : Fin 17) : kpSel unitPoseKp unitPoseConf i = some (1, 1) := by
  norm_num [kpSel, CONF_THRESH, is_visible, unitPoseKp, unitPoseConf]

/-- Witness for the usable-keypoints conjunct of C4. -/
theorem L_ACL_band_witness :
    analyze_person_risks unitPoseKp unitPoseConf .L_ACL
      = some (aclRisk (calculate_angle (1, 1) (1, 1) (1, 1))) :=
  L_ACL_band_of_knee_angle.1 unitPoseKp unitPoseConf (1, 1) (1, 1) (1, 1)
    (unitPose_kpSel 11) (unitPose_kpSel 13) (unitPose_kpSel 15)

/-- Function `risk_severity(score)` (`main.py` lines 234-238). -/
def risk_severity (score : ℤ) : String :=
  if score < 30 then "LOW"
  else if score < 60 then "MEDIUM"
  else if score < 80 then "HIGH"
  else "CRITICAL"

/-- Python float `%` for a positive modulus: `a - b * floor(a / b)`. -/
def qmod (a b : ℚ) : ℚ := a - b * ⌊a / b⌋

/-- Function `frames_to_timestamp(frame, fps)` (`main.py` lines 248-252):
minutes, a colon, then the zero-padded seconds, with minutes the floor
division of seconds by 60 and seconds the truncated modulo 60. -/
def frames_to_timestamp (frame : ℕ) (fps : ℚ) : String :=
  let seconds : ℚ := (frame : ℚ) / fps
  let mins : ℤ := ⌊seconds / 60⌋
  let secs : ℤ := pyInt (qmod seconds 60)
  toString mins ++ ":" ++ (if 0 ≤ secs ∧ secs < 10 then "0" ++ toString secs else toString secs)

/-- Python `round(q, 1)`: scale by 10, round half to even, scale back. -/
def pyRound1 (q : ℚ) : ℚ :=
  let y := 10 * q
  let f := ⌊y⌋
  let n : ℤ := if 1 / 2 < y - f then f + 1 else if y - f < 1 / 2 then f else if f % 2 = 0 then f else f + 1
  (n : ℚ) / 10

/-- Lookup `FACTOR_TO_PART.get(factor, factor)` (`main.py` lines 71-78). -/
def FACTOR_TO_PART (factor : String) : String :=
  if factor = "L_ACL" ∨ factor = "R_ACL" then "knee"
  else if factor = "L_Hip" ∨ factor = "R_Hip" then "hip"
  else if factor = "Trunk" then "lower_back"
  else if factor = "Shoulder_Asym" then "shoulder"
  else if factor = "Hip_Asym" then "hip"
  else if factor = "L_Ankle" ∨ factor = "R_Ankle" then "ankle"
  else factor

/-- Lookup `FACTOR_DESCRIPTIONS.get(factor, default)` (`main.py` lines
80-90), whose default appends the factor name to a fixed prefix. -/
def FACTOR_DESCRIPTIONS (factor : String) : String :=
  if factor = "L_ACL" then
    "Left knee valgus detected — ACL injury risk from inward knee collapse during movement."
  else if factor = "R_ACL" then
    "Right knee valgus detected — ACL injury risk from inward knee collapse during movement."
  else if factor = "L_Hip" then
    "Left hip flexion exceeds safe range — potential hip flexor strain."
  else if factor = "R_Hip" then
    "Right hip flexion exceeds safe range — potential hip flexor strain."
  else if factor = "Trunk" then
    "Excessive trunk lean detected — increased spinal load and lower back injury risk."
  else if factor = "Shoulder_Asym" then
    "Shoulder asymmetry detected — compensatory strain pattern increasing injury risk."
  else if factor = "Hip_Asym" then
    "Hip asymmetry detected — uneven load distribution may lead to overuse injury."
  else if factor = "L_Ankle" then
    "Left ankle dorsiflexion concern — poor landing mechanics increasing joint stress."
  else if factor = "R_Ankle" then
    "Right ankle dorsiflexion concern — poor landing mechanics increasing joint stress."
  else "Risk detected in " ++ factor

/-- One emitted risk event (`main.py` lines 379-387). -/
structure RiskEvent where
  timestamp : String
  frame : ℕ
  risk : ℕ
  part : String
  severity : String
  description : String
  angle : Option ℚ
deriving DecidableEq, Repr

/-- The per-factor event-detection state (`main.py` lines 356-359). -/
structure FactorState where
  active : Bool
  start_frame : ℕ
  peak_risk : ℕ
  peak_frame : ℕ
  peak_angle : Option ℚ
deriving DecidableEq, Repr

/-- The initial per-factor state: inactive, zero peaks. -/
def initFactorState : FactorState :=
  { active := false, start_frame := 0, peak_risk := 0, peak_frame := 0, peak_angle := none }

/-- The event record appended on deactivation or flush (`main.py` lines
379-387 and 411-419), built from the recorded peak. -/
def mkRiskEvent (fps : ℚ) (factor : String) (st : FactorState) : RiskEvent :=
  { timestamp := frames_to_timestamp st.peak_frame fps
    frame := st.peak_frame
    risk := st.peak_risk
    part := FACTOR_TO_PART factor
    severity := risk_severity (st.peak_risk : ℤ)
    description := FACTOR_DESCRIPTIONS factor
    angle := st.peak_angle.map pyRound1 }

/-- One step of the event-detection state machine for one factor on one frame
(`main.py` lines 366-387): activate at risk ≥ 30, track the peak while
active, emit one event when the risk drops below 30. -/
def factorStep (fps : ℚ) (factor : String) (st : FactorState) (frame_count : ℕ)
    (risk_val : ℕ) (detail : Option ℚ) : FactorState × Option RiskEvent :=
  if 30 ≤ risk_val ∧ st.active = false then
    ({ active := true, start_frame := frame_count, peak_risk := risk_val,
       peak_frame := frame_count, peak_angle := detail }, none)
  else if 30 ≤ risk_val ∧ st.active = true then
    (if st.peak_risk < risk_val then
      { st with peak_risk := risk_val, peak_frame := frame_count, peak_angle := detail }
     else st, none)
  else if risk_val < 30 ∧ st.active = true then
    ({ st with active := false }, some (mkRiskEvent fps factor st))
  else (st, none)

/-- Run the state machine over the factor's per-frame inputs
`(frame_count, risk_val, detail)`, from a given state; each emitted event is
paired with the frame at which the loop appended it. -/
def runFactorFrom (fps : ℚ) (factor : String) (st : FactorState) :
    List (ℕ × ℕ × Option ℚ) → FactorState × List (ℕ × RiskEvent)
  | [] => (st, [])
  | inp :: rest =>
    let stepped := factorStep fps factor st inp.1 inp.2.1 inp.2.2
    let tail := runFactorFrom fps factor stepped.1 rest
    (tail.1, (stepped.2.map fun e => (inp.1, e)).toList ++ tail.2)

/-- Run the state machine from the initial state (the per-factor slice of the
frame loop of `process_video`). -/
def runFactor (fps : ℚ) (factor : String) (inputs : List (ℕ × ℕ × Option ℚ)) :
    FactorState × List (ℕ × RiskEvent) :=
  runFactorFrom fps factor initFactorState inputs

/-- The end-of-video flush (`main.py` lines 408-419): a still-active factor
with peak ≥ 30 emits one final event. -/
def flushFactor (fps : ℚ) (factor : String) (st : FactorState) : List RiskEvent :=
  if st.active = true ∧ 30 ≤ st.peak_risk then [mkRiskEvent fps factor st] else []

/-- C2: the risk sequence [0, 40, 55, 20, 0] over frames 1-5 produces exactly
one event, carrying peak risk 55 recorded at frame 3 and emitted while
processing frame 4; the final state triggers no flush; and any factor still
active at end of video with peak ≥ 30 flushes exactly one event at that
peak. -/
theorem event_hysteresis_and_flush :
    ((runFactor 30 "Trunk"
        [(1, 0, none), (2, 40, none), (3, 55, none), (4, 20, none), (5, 0, none)]).2.map
          fun p => (p.1, p.2.risk, p.2.frame)) = [(4, 55, 3)]
  ∧ flushFactor 30 "Trunk"
      (runFactor 30 "Trunk"
        [(1, 0, none), (2, 40, none), (3, 55, none), (4, 20, none), (5, 0, none)]).1 = []
  ∧ (∀ fps factor st, st.active = true → 30 ≤ st.peak_risk →
      flushFactor fps factor st = [mkRiskEvent fps factor st]
        ∧ (mkRiskEvent fps factor st).risk = st.peak_risk) := by
  refine ⟨by decide, by decide, ?_⟩
  intro fps factor st h1 h2
  rw [flushFactor, if_pos ⟨h1, h2⟩]
  exact ⟨rfl, rfl⟩

/-- Witness for the flush conjunct of C2: a state active at peak 40. -/
theorem event_flush_witness :
    flushFactor 30 "Trunk"
        { active := true, start_frame := 2, peak_risk := 40, peak_frame := 2, peak_angle := none }
      = [mkRiskEvent 30 "Trunk"
          { active := true, start_frame := 2, peak_risk := 40, peak_frame := 2, peak_angle := none }]
    ∧ (mkRiskEvent 30 "Trunk"
        { active := true, start_frame := 2, peak_risk := 40, peak_frame := 2,
          peak_angle := none }).risk = 40 :=
  event_hysteresis_and_flush.2.2 30 "Trunk"
    { active := true, start_frame := 2, peak_risk := 40, peak_frame := 2, peak_angle := none }
    rfl (by decide)

/-- An event whose risk is at least 30 and whose severity label is one of the
three non-LOW bands. -/
def goodEvent (e : RiskEvent) : Bool :=
  decide (30 ≤ e.risk) && !(e.severity == "LOW") &&
    (e.severity == "MEDIUM" || e.severity == "HIGH" || e.severity == "CRITICAL")

lemma risk_severity_ge30 (n : ℕ) (h : 30 ≤ n) :
    risk_severity (n : ℤ) = "MEDIUM" ∨ risk_severity (n : ℤ) = "HIGH"
      ∨ risk_severity (n : ℤ) = "CRITICAL" := by
  have h30 : ¬((n : ℤ) < 30) := by
    omega
  unfold risk_severity
  rw [if_neg h30]
  by_cases h60 : (n : ℤ) < 60
  · left
    rw [if_pos h60]
  · by_cases h80 : (n : ℤ) < 80
    · right; left
      rw [if_neg h60, if_pos h80]
    · right; right
      rw [if_neg h60, if_neg h80]

lemma goodEvent_mk (fps : ℚ) (factor : String) (st : FactorState)
    (h : 30 ≤ st.peak_risk) : goodEvent (mkRiskEvent fps factor st) = true := by
  rcases risk_severity_ge30 st.peak_risk h with h1 | h1 | h1 <;>
    simp [goodEvent, mkRiskEvent, h1, h]

lemma factorStep_good (fps : ℚ) (factor : String) (st : FactorState)
    (frame_count risk_val : ℕ) (detail : Option ℚ)
    (h : st.active = true → 30 ≤ st.peak_risk) :
    ((factorStep fps factor st frame_count risk_val detail).1.active = true →
        30 ≤ (factorStep fps factor st frame_count risk_val detail).1.peak_risk)
    ∧ (∀ e, (factorStep fps factor st frame_count risk_val detail).2 = some e →
        goodEvent e = true) := by
  unfold factorStep
  split_ifs with h1 h2 hlt h3
  · exact ⟨fun _ => h1.1, by simp⟩
  · exact ⟨fun _ => h2.1, by simp⟩
  · exact ⟨h, by simp⟩
  · refine ⟨by simp, ?_⟩
    intro e he
    simp only [Option.some.injEq] at he
    subst he
    exact goodEvent_mk fps factor st (h h3.2)
  · exact ⟨h, by simp⟩

lemma runFactorFrom_good (fps : ℚ) (factor : String) :
    ∀ (inputs : List (ℕ × ℕ × Option ℚ)) (st : FactorState),
      (st.active = true → 30 ≤ st.peak_risk) →
      ((runFactorFrom fps factor st inputs).1.active = true →
          30 ≤ (runFactorFrom fps factor st inputs).1.peak_risk)
      ∧ ∀ p ∈ (runFactorFrom fps factor st inputs).2, goodEvent p.2 = true := by
  intro inputs
  induction inputs with
  | nil =>
    intro st h
    exact ⟨h, by simp [runFactorFrom]⟩
  | cons inp rest ih =>
    intro st h
    have hstep := factorStep_good fps factor st inp.1 inp.2.1 inp.2.2 h
    have htail := ih (factorStep fps factor st inp.1 inp.2.1 inp.2.2).1 hstep.1
    refine ⟨htail.1, ?_⟩
    intro p hp
    simp only [runFactorFrom, List.mem_append] at hp
    rcases hp with hp | hp
    · rcases ho : (factorStep fps factor st inp.1 inp.2.1 inp.2.2).2 with _ | e
      · rw [ho] at hp
        simp at hp
      · rw [ho] at hp
        simp at hp
        subst hp
        exact hstep.2 e ho
    · exact htail.2 p hp

/-- C10: every event the state machine emits — on deactivation or in the
end-of-video flush — has risk at least 30 and severity MEDIUM, HIGH or
CRITICAL, never LOW. -/
theorem emitted_events_at_least_medium :
    ∀ (fps : ℚ) (factor : String) (inputs : List (ℕ × ℕ × Option ℚ)),
      ((runFactor fps factor inputs).2.all fun p => goodEvent p.2) = true
      ∧ ((flushFactor fps factor (runFactor fps factor inputs).1).all goodEvent) = true := by
  intro fps factor inputs
  have h := runFactorFrom_good fps factor inputs initFactorState (by simp [initFactorState])
  constructor
  · rw [List.all_eq_true]
    intro p hp
    exact h.2 p hp
  · rw [List.all_eq_true]
    intro e he
    unfold flushFactor at he
    split_ifs at he with hcond
    · rw [List.mem_singleton] at he
      subst he
      exact goodEvent_mk fps factor _ hcond.2
    · simp at he

/-- The sort order of `sorted(risk_events, key=lambda x: -x["risk"])`:
descending risk.  Python's sort is stable; `List.insertionSort` with this
relation is the (unique) stable sort for it. -/
def byDescRisk (a b : RiskEvent) : Prop := b.risk ≤ a.risk

instance : DecidableRel byDescRisk := fun a b => inferInstanceAs (Decidable (b.risk ≤ a.risk))

instance : IsTotal RiskEvent byDescRisk := ⟨fun a b => le_total b.risk a.risk⟩

instance : IsTrans RiskEvent byDescRisk := ⟨fun _ _ _ h1 h2 => le_trans h2 h1⟩

/-- The dedup loop of `process_video` (`main.py` lines 422-428): walk the
sorted events, keep an event whose `(timestamp, part)` key is unseen, record
the key. -/
def dedupSeen : List (String × String) → List RiskEvent → List RiskEvent
  | _, [] => []
  | seen, e :: rest =>
    if (e.timestamp, e.part) ∈ seen then dedupSeen seen rest
    else e :: dedupSeen ((e.timestamp, e.part) :: seen) rest

/-- Event deduplication (`main.py` lines 421-428): sort by descending risk,
then keep the first occurrence of each `(timestamp, part)` pair. -/
def deduplicate_events (events : List RiskEvent) : List RiskEvent :=
  dedupSeen [] (List.insertionSort byDescRisk events)

lemma dedupSeen_spec :
    ∀ (l : List RiskEvent) (seen : List (String × String)),
      ((dedupSeen seen l).map fun e => (e.timestamp, e.part)).Nodup
      ∧ (∀ e ∈ dedupSeen seen l, (e.timestamp, e.part) ∉ seen)
      ∧ (∀ e ∈ dedupSeen seen l, e ∈ l) := by
  intro l
  induction l with
  | nil => simp [dedupSeen]
  | cons a rest ih =>
    intro seen
    by_cases hk : (a.timestamp, a.part) ∈ seen
    · have h := ih seen
      simp only [dedupSeen, if_pos hk]
      exact ⟨h.1, h.2.1, fun e he => List.mem_cons_of_mem a (h.2.2 e he)⟩
    · have h := ih ((a.timestamp, a.part) :: seen)
      simp only [dedupSeen, if_neg hk]
      refine ⟨?_, ?_, ?_⟩
      · simp only [List.map_cons, List.nodup_cons]
        refine ⟨?_, h.1⟩
        intro hmem
        obtain ⟨e, he, hkey⟩ := List.mem_map.mp hmem
        exact (h.2.1 e he) (hkey ▸ List.mem_cons_self _ _)
      · intro e he
        rcases List.mem_cons.mp he with rfl | he'
        · exact hk
        · intro hseen
          exact h.2.1 e he' (List.mem_cons_of_mem _ hseen)
      · intro e he
        rcases List.mem_cons.mp he with rfl | he'
        · exact List.mem_cons_self _ _
        · exact List.mem_cons_of_mem _ (h.2.2 e he')

lemma dedupSeen_max :
    ∀ (l : List RiskEvent), l.Sorted byDescRisk →
      ∀ (seen : List (String × String)) (e : RiskEvent),
        e ∈ l → (e.timestamp, e.part) ∉ seen →
        ∃ e2 ∈ dedupSeen seen l,
          e2.timestamp = e.timestamp ∧ e2.part = e.part ∧ e.risk ≤ e2.risk := by
  intro l
  induction l with
  | nil =>
    intro _ seen e he
    simp at he
  | cons a rest ih =>
    intro hsort seen e he hseen
    by_cases hk : (a.timestamp, a.part) ∈ seen
    · rw [dedupSeen, if_pos hk]
      rcases List.mem_cons.mp he with rfl | he'
      · exact absurd hk hseen
      · exact ih hsort.of_cons seen e he' hseen
    · rw [dedupSeen, if_neg hk]
      by_cases hke : (e.timestamp, e.part) = (a.timestamp, a.part)
      · have hts : e.timestamp = a.timestamp := congrArg Prod.fst hke
        have hpt : e.part = a.part := congrArg Prod.snd hke
        refine ⟨a, List.mem_cons_self _ _, hts.symm, hpt.symm, ?_⟩
        rcases List.mem_cons.mp he with rfl | he'
        · exact le_refl _
        · exact List.rel_of_sorted_cons hsort e he'
      · rcases List.mem_cons.mp he with rfl | he'
        · exact absurd rfl hke
        · obtain ⟨e2, he2, h1, h2, h3⟩ :=
            ih hsort.of_cons ((a.timestamp, a.part) :: seen) e he'
              (by
                intro hmem
                rcases List.mem_cons.mp hmem with hx | hx
                · exact hke hx
                · exact hseen hx)
          exact ⟨e2, List.mem_cons_of_mem a he2, h1, h2, h3⟩

/-- Two synthesized knee events at the same timestamp, risks 40 and 70. -/
def kneeEvent40 : RiskEvent :=
  { timestamp := "0:05", frame := 150, risk := 40, part := "knee", severity := "MEDIUM",
    description := "synthesized low event", angle := none }

/-- The higher-risk duplicate of `kneeEvent40`. -/
def kneeEvent70 : RiskEvent :=
  { timestamp := "0:05", frame := 150, risk := 70, part := "knee", severity := "HIGH",
    description := "synthesized high event", angle := none }

/-- C3: deduplication keeps one event per `(timestamp, part)` key, every kept
event comes from the input, every input event is represented by a kept event
of the same key with at least its risk, and of the two knee events at "0:05"
with risks 40 and 70 exactly the risk-70 one survives. -/
theorem dedup_keeps_highest_risk_per_key :
    (∀ events : List RiskEvent,
        ((deduplicate_events events).map fun e => (e.timestamp, e.part)).Nodup)
  ∧ (∀ events : List RiskEvent, ∀ e ∈ deduplicate_events events, e ∈ events)
  ∧ (∀ events : List RiskEvent, ∀ e ∈ events,
        ∃ e2 ∈ deduplicate_events events,
          e2.timestamp = e.timestamp ∧ e2.part = e.part ∧ e.risk ≤ e2.risk)
  ∧ deduplicate_events [kneeEvent40, kneeEvent70] = [kneeEvent70] := by
  refine ⟨?_, ?_, ?_, by decide⟩
  · intro events
    exact (dedupSeen_spec (List.insertionSort byDescRisk events) []).1
  · intro events e he
    exact (List.mem_insertionSort byDescRisk).mp
      ((dedupSeen_spec (List.insertionSort byDescRisk events) []).2.2 e he)
  · intro events e he
    exact dedupSeen_max (List.insertionSort byDescRisk events)
      (List.sorted_insertionSort byDescRisk events) [] e
      ((List.mem_insertionSort byDescRisk).mpr he) (by simp)

/-- Witness for the hypothesis-bearing conjuncts of C3, at the two knee
events. -/
theorem dedup_keeps_highest_risk_witness :
    kneeEvent70 ∈ [kneeEvent40, kneeEvent70]
    ∧ (∃ e2 ∈ deduplicate_events [kneeEvent40, kneeEvent70],
        e2.timestamp = kneeEvent40.timestamp ∧ e2.part = kneeEvent40.part
          ∧ kneeEvent40.risk ≤ e2.risk) :=
  ⟨dedup_keeps_highest_risk_per_key.2.1 [kneeEvent40, kneeEvent70] kneeEvent70 (by decide),
   dedup_keeps_highest_risk_per_key.2.2.1 [kneeEvent40, kneeEvent70] kneeEvent40 (by decide)⟩

/-- The knee suggestion text (`main.py` line 260). -/
def S_knee : String :=
  "Implement knee valgus correction drills — single-leg squats and knee-over-toe exercises"

/-- The hip suggestion text (`main.py` line 262). -/
def S_hip : String :=
  "Add hip mobility and glute activation warm-up before training sessions"

/-- The lower-back suggestion text (`main.py` line 264). -/
def S_lower_back : String :=
  "Strengthen core with anti-extension exercises (planks, dead bugs, pallof press)"

/-- The shoulder suggestion text (`main.py` line 266). -/
def S_shoulder : String :=
  "Include rotator cuff strengthening and shoulder mobility work pre-session"

/-- The ankle suggestion text (`main.py` line 268). -/
def S_ankle : String :=
  "Work on ankle mobility and dorsiflexion with banded stretches"

/-- The high-mean-risk suggestion text (`main.py` line 271). -/
def S_high_risk : String :=
  "Overall risk is HIGH — consider reducing training intensity and scheduling a biomechanics review"

/-- The moderate-mean-risk suggestion text (`main.py` line 273). -/
def S_moderate_risk : String :=
  "Moderate risk levels detected — monitor form closely during high-intensity phases"

/-- The fallback suggestion text (`main.py` line 276). -/
def S_maintain : String :=
  "Good biomechanics observed — maintain current form and continue injury prevention exercises"

/-- The suggestion list built by `generate_suggestions` before the fallback
check (`main.py` lines 256-273): one fixed suggestion per present body part
in source order, then the mean-risk band suggestion. -/
def rawSuggestions (events : List RiskEvent) (avg_risk : ℚ) : List String :=
  (if "knee" ∈ events.map fun e => e.part then [S_knee] else []) ++
  (if "hip" ∈ events.map fun e => e.part then [S_hip] else []) ++
  (if "lower_back" ∈ events.map fun e => e.part then [S_lower_back] else []) ++
  (if "shoulder" ∈ events.map fun e => e.part then [S_shoulder] else []) ++
  (if "ankle" ∈ events.map fun e => e.part then [S_ankle] else []) ++
  (if 60 < avg_risk then [S_high_risk]
   else if 40 < avg_risk then [S_moderate_risk] else [])

/-- Function `generate_suggestions(events, avg_risk)` (`main.py` lines 255-278):
the built suggestions, or the single fallback when none were produced. -/
def generate_suggestions (events : List RiskEvent) (avg_risk : ℚ) : List String :=
  if rawSuggestions events avg_risk = [] then [S_maintain] else rawSuggestions events avg_risk

/-- The per-part suggestion catalog in the spec's fixed order. -/
def SUGGESTION_CATALOG : List (String × String) :=
  [("knee", S_knee), ("hip", S_hip), ("lower_back", S_lower_back),
   ("shoulder", S_shoulder), ("ankle", S_ankle)]

/-- The suggestion list as the spec states it: the catalog filtered to parts
present among the events, then the band suggestion, then the fallback. -/
def suggestionsSpec (events : List RiskEvent) (avg_risk : ℚ) : List String :=
  let partSugs :=
    (SUGGESTION_CATALOG.filter fun pr => decide (pr.1 ∈ events.map fun e => e.part)).map
      fun pr => pr.2
  let band :=
    if 60 < avg_risk then [S_high_risk]
    else if 40 < avg_risk then [S_moderate_risk] else []
  if partSugs ++ band = [] then [S_maintain] else partSugs ++ band

lemma filter_catalog_eq (parts : List String) :
    ((SUGGESTION_CATALOG.filter fun pr => decide (pr.1 ∈ parts)).map fun pr => pr.2)
      = (if "knee" ∈ parts then [S_knee] else []) ++ (if "hip" ∈ parts then [S_hip] else [])
        ++ (if "lower_back" ∈ parts then [S_lower_back] else [])
        ++ (if "shoulder" ∈ parts then [S_shoulder] else [])
        ++ (if "ankle" ∈ parts then [S_ankle] else []) := by
  by_cases h1 : "knee" ∈ parts <;> by_cases h2 : "hip" ∈ parts <;>
    by_cases h3 : "lower_back" ∈ parts <;> by_cases h4 : "shoulder" ∈ parts <;>
    by_cases h5 : "ankle" ∈ parts <;>
    simp [SUGGESTION_CATALOG, h1, h2, h3, h4, h5]

lemma mem_ite_sing {c : Prop} [Decidable c] {a x : String}
    (ha : a ∈ (if c then [x] else [])) : a = x ∧ c := by
  by_cases h : c
  · rw [if_pos h] at ha
    exact ⟨List.mem_singleton.mp ha, h⟩
  · rw [if_neg h] at ha
    simp at ha

lemma mem_rawSuggestions {events : List RiskEvent} {avg : ℚ} {a : String}
    (ha : a ∈ rawSuggestions events avg) :
    a = S_knee ∨ a = S_hip ∨ a = S_lower_back ∨ a = S_shoulder ∨ a = S_ankle
    ∨ (a = S_high_risk ∧ 60 < avg)
    ∨ (a = S_moderate_risk ∧ ¬60 < avg ∧ 40 < avg) := by
  simp only [rawSuggestions, List.mem_append] at ha
  rcases ha with ((((h | h) | h) | h) | h) | h
  · exact Or.inl (mem_ite_sing h).1
  · exact Or.inr (Or.inl (mem_ite_sing h).1)
  · exact Or.inr (Or.inr (Or.inl (mem_ite_sing h).1))
  · exact Or.inr (Or.inr (Or.inr (Or.inl (mem_ite_sing h).1)))
  · exact Or.inr (Or.inr (Or.inr (Or.inr (Or.inl (mem_ite_sing h).1))))
  · by_cases h60 : (60 : ℚ) < avg
    · rw [if_pos h60] at h
      exact Or.inr (Or.inr (Or.inr (Or.inr (Or.inr (Or.inl
        ⟨List.mem_singleton.mp h, h60⟩)))))
    · rw [if_neg h60] at h
      have := mem_ite_sing h
      exact Or.inr (Or.inr (Or.inr (Or.inr (Or.inr (Or.inr
        ⟨this.1, h60, this.2⟩)))))

/-- A synthesized shoulder event used for the C7 instance. -/
def shoulderEvent65 : RiskEvent :=
  { timestamp := "0:10", frame := 300, risk := 65, part := "shoulder", severity := "HIGH",
    description := "synthesized shoulder event", angle := none }

/-- C7: suggestions come in catalog order filtered to present parts, at most
one band suggestion fires (never both), the fallback fires exactly when
nothing else was produced, and knee+shoulder events at mean risk 65 produce
the knee drill, the shoulder drill and the high-band suggestion only. -/
theorem suggestions_catalog_order_and_bands :
    (∀ (events : List RiskEvent) (avg_risk : ℚ),
        generate_suggestions events avg_risk = suggestionsSpec events avg_risk)
  ∧ (∀ (events : List RiskEvent) (avg_risk : ℚ),
        ¬(S_high_risk ∈ generate_suggestions events avg_risk
          ∧ S_moderate_risk ∈ generate_suggestions events avg_risk))
  ∧ (∀ (events : List RiskEvent) (avg_risk : ℚ), generate_suggestions events avg_risk ≠ [])
  ∧ (∀ (events : List RiskEvent) (avg_risk : ℚ),
        (∀ pr ∈ SUGGESTION_CATALOG, pr.1 ∉ events.map fun e => e.part) → avg_risk ≤ 40 →
        generate_suggestions events avg_risk = [S_maintain])
  ∧ generate_suggestions [kneeEvent70, shoulderEvent65] 65
      = [S_knee, S_shoulder, S_high_risk] := by
  refine ⟨?_, ?_, ?_, ?_, ?_⟩
  · intro events avg_risk
    simp only [generate_suggestions, suggestionsSpec, rawSuggestions, filter_catalog_eq,
      List.append_assoc]
  · intro events avg_risk h
    rcases h with ⟨hh, hm⟩
    simp only [generate_suggestions] at hh hm
    by_cases hnil : rawSuggestions events avg_risk = []
    · rw [if_pos hnil] at hh
      have : S_high_risk = S_maintain := List.mem_singleton.mp hh
      exact absurd this (by decide)
    · rw [if_neg hnil] at hh hm
      have h1 := mem_rawSuggestions hh
      have h2 := mem_rawSuggestions hm
      rcases h1 with h1 | h1 | h1 | h1 | h1 | h1 | h1
      · exact absurd h1 (by decide)
      · exact absurd h1 (by decide)
      · exact absurd h1 (by decide)
      · exact absurd h1 (by decide)
      · exact absurd h1 (by decide)
      · rcases h2 with h2 | h2 | h2 | h2 | h2 | h2 | h2
        · exact absurd h2 (by decide)
        · exact absurd h2 (by decide)
        · exact absurd h2 (by decide)
        · exact absurd h2 (by decide)
        · exact absurd h2 (by decide)
        · exact absurd h2.1 (by decide)
        · exact absurd h1.2 h2.2.1
      · exact absurd h1.1 (by decide)
  · intro events avg_risk
    simp only [generate_suggestions]
    split_ifs with h
    · simp
    · exact h
  · intro events avg_risk hparts havg
    have hk := hparts ("knee", S_knee) (by simp [SUGGESTION_CATALOG])
    have hh := hparts ("hip", S_hip) (by simp [SUGGESTION_CATALOG])
    have hl := hparts ("lower_back", S_lower_back) (by simp [SUGGESTION_CATALOG])
    have hs := hparts ("shoulder", S_shoulder) (by simp [SUGGESTION_CATALOG])
    have ha := hparts ("ankle", S_ankle) (by simp [SUGGESTION_CATALOG])
    have h60 : ¬(60 : ℚ) < avg_risk := by linarith
    have h40 : ¬(40 : ℚ) < avg_risk := by linarith
    have hnil : rawSuggestions events avg_risk = [] := by
      simp only [rawSuggestions]
      rw [if_neg hk, if_neg hh, if_neg hl, if_neg hs, if_neg ha, if_neg h60, if_neg h40]
      simp
    simp [generate_suggestions, hnil]
  · have hknee : ("knee" ∈ [kneeEvent70, shoulderEvent65].map fun e => e.part) := by
      simp [kneeEvent70, shoulderEvent65]
    have hsh : ("shoulder" ∈ [kneeEvent70, shoulderEvent65].map fun e => e.part) := by
      simp [kneeEvent70, shoulderEvent65]
    have hhip : ¬("hip" ∈ [kneeEvent70, shoulderEvent65].map fun e => e.part) := by
      simp [kneeEvent70, shoulderEvent65]
    have hlb : ¬("lower_back" ∈ [kneeEvent70, shoulderEvent65].map fun e => e.part) := by
      simp [kneeEvent70, shoulderEvent65]
    have hank : ¬("ankle" ∈ [kneeEvent70, shoulderEvent65].map fun e => e.part) := by
      simp [kneeEvent70, shoulderEvent65]
    have h60 : (60 : ℚ) < 65 := by norm_num
    have hraw : rawSuggestions [kneeEvent70, shoulderEvent65] 65
        = [S_knee, S_shoulder, S_high_risk] := by
      simp only [rawSuggestions]
      rw [if_pos hknee, if_neg hhip, if_neg hlb, if_pos hsh, if_neg hank, if_pos h60]
      rfl
    simp [generate_suggestions, hraw]

/-- Witness for the fallback conjunct of C7: no events, mean risk 0. -/
theorem suggestions_fallback_witness :
    generate_suggestions [] 0 = [S_maintain] :=
  suggestions_catalog_order_and_bands.2.2.2.1 [] 0 (by simp) (by norm_num)

/-- The console's local `kp(i)` helper (`app_realtime (1).py` lines 79-81):
the keypoint if its confidence exceeds the slider threshold and both
coordinates are positive. -/
def console_kp (conf_thresh : ℚ) (pkp : Fin 17 → Pt) (pconf : Fin 17 → ℚ) (i : Fin 17) :
    Option Pt :=
  if conf_thresh < pconf i ∧ 0 < (pkp i).1 ∧ 0 < (pkp i).2 then some (pkp i) else none

/-- The console's `calculate_angle` (`app_realtime (1).py` lines 47-53),
duplicated from the backend with the same formula. -/
noncomputable def console_calculate_angle (a b c : Pt) : ℝ :=
  if normArm a b = 0 ∨ normArm c b = 0 then 180
  else Real.arccos (clip ((dotArm a b c : ℝ) / (normArm a b * normArm c b))) * (180 / Real.pi)

/-- The console's per-person risks dict (`app_realtime (1).py` lines 83-106):
only the five factors `L_ACL`, `R_ACL`, `L_Hip`, `R_Hip`, `Trunk`. -/
noncomputable def console_risks (conf_thresh : ℚ) (pkp : Fin 17 → Pt) (pconf : Fin 17 → ℚ) :
    Factor → Option ℕ :=
  let kp := console_kp conf_thresh pkp pconf
  fun f =>
    match f with
    | .L_ACL =>
      match kp 11, kp 13, kp 15 with
      | some lh, some lk, some la =>
        some (if console_calculate_angle lh lk la < 120 then 90
              else if console_calculate_angle lh lk la < 140 then 60
              else if console_calculate_angle lh lk la < 160 then 30 else 0)
      | _, _, _ => none
    | .R_ACL =>
      match kp 12, kp 14, kp 16 with
      | some rh, some rk, some ra =>
        some (if console_calculate_angle rh rk ra < 120 then 90
              else if console_calculate_angle rh rk ra < 140 then 60
              else if console_calculate_angle rh rk ra < 160 then 30 else 0)
      | _, _, _ => none
    | .L_Hip =>
      match kp 5, kp 11, kp 13 with
      | some ls, some lh, some lk =>
        some (if console_calculate_angle ls lh lk < 100 then 80
              else if console_calculate_angle ls lh lk < 130 then 45
              else if console_calculate_angle ls lh lk < 150 then 20 else 0)
      | _, _, _ => none
    | .R_Hip =>
      match kp 6, kp 12, kp 14 with
      | some rs, some rh, some rk =>
        some (if console_calculate_angle rs rh rk < 100 then 80
              else if console_calculate_angle rs rh rk < 130 then 45
              else if console_calculate_angle rs rh rk < 150 then 20 else 0)
      | _, _, _ => none
    | .Trunk =>
      match kp 5, kp 6, kp 11, kp 12 with
      | some ls, some rs, some lh, some rh =>
        let sm : Pt := ((ls.1 + rs.1) / 2, (ls.2 + rs.2) / 2)
        let hm : Pt := ((lh.1 + rh.1) / 2, (lh.2 + rh.2) / 2)
        let lean : ℝ :=
          if hm.2 - sm.2 ≠ 0 then
            |atan2 ((hm.1 - sm.1 : ℚ) : ℝ) ((hm.2 - sm.2 : ℚ) : ℝ) * (180 / Real.pi)|
          else 0
        some (if 35 < lean then 75 else if 25 < lean then 50 else if 15 < lean then 25 else 0)
      | _, _, _, _ => none
    | _ => none

/-- The console's weight dict (`app_realtime (1).py` lines 108-109): only the
five computed factors carry a weight. -/
def console_weights : Factor → Option ℚ
  | .L_ACL => some 0.25
  | .R_ACL => some 0.25
  | .L_Hip => some 0.10
  | .R_Hip => some 0.10
  | .Trunk => some 0.12
  | _ => none

/-- The console's composite (`app_realtime (1).py` lines 110-112):
`int(weighted sum / total weight)` when the total weight is positive, else 0,
then clamped by `min(·, 100)`. -/
noncomputable def console_comp (conf_thresh : ℚ) (pkp : Fin 17 → Pt)
    (pconf : Fin 17 → ℚ) : ℤ :=
  let risks := console_risks conf_thresh pkp pconf
  let tw : ℚ := (FACTORS.filterMap fun f =>
    match risks f, console_weights f with
    | some _, some w => some w
    | _, _ => none).sum
  let ws : ℚ := (FACTORS.filterMap fun f =>
    match risks f, console_weights f with
    | some r, some w => some ((r : ℚ) * w)
    | _, _ => none).sum
  let comp : ℤ := if 0 < tw then pyInt (ws / tw) else 0
  min comp 100

lemma console_kp_eq (pkp : Fin 17 → Pt) (pconf : Fin 17 → ℚ) (i : Fin 17) :
    console_kp CONF_THRESH pkp pconf i = kpSel pkp pconf i := by
  simp only [console_kp, kpSel]
  apply if_congr _ rfl rfl
  simp [is_visible]

lemma console_angle_eq : console_calculate_angle = calculate_angle := rfl

lemma console_lean_eq (sx sy hx hy : ℚ) :
    (if hy - sy ≠ 0 then
        |atan2 ((hx - sx : ℚ) : ℝ) ((hy - sy : ℚ) : ℝ) * (180 / Real.pi)|
      else (0 : ℝ))
    = trunk_lean_angle (sx, sy) (hx, hy) := by
  simp only [trunk_lean_angle]
  by_cases h : hy - sy = 0
  · rw [if_neg (not_not_intro h), if_pos h]
  · rw [if_pos h, if_neg h]

lemma console_L_ACL_eq (pkp : Fin 17 → Pt) (pconf : Fin 17 → ℚ) :
    console_risks CONF_THRESH pkp pconf .L_ACL = analyze_person_risks pkp pconf .L_ACL := by
  simp only [console_risks, analyze_person_risks, console_kp_eq, console_angle_eq]
  cases kpSel pkp pconf 11 <;> cases kpSel pkp pconf 13 <;> cases kpSel pkp pconf 15 <;> rfl

lemma console_R_ACL_eq (pkp : Fin 17 → Pt) (pconf : Fin 17 → ℚ) :
    console_risks CONF_THRESH pkp pconf .R_ACL = analyze_person_risks pkp pconf .R_ACL := by
  simp only [console_risks, analyze_person_risks, console_kp_eq, console_angle_eq]
  cases kpSel pkp pconf 12 <;> cases kpSel pkp pconf 14 <;> cases kpSel pkp pconf 16 <;> rfl

lemma console_L_Hip_eq (pkp : Fin 17 → Pt) (pconf : Fin 17 → ℚ) :
    console_risks CONF_THRESH pkp pconf .L_Hip = analyze_person_risks pkp pconf .L_Hip := by
  simp only [console_risks, analyze_person_risks, console_kp_eq, console_angle_eq]
  cases kpSel pkp pconf 5 <;> cases kpSel pkp pconf 11 <;> cases kpSel pkp pconf 13 <;> rfl

lemma console_R_Hip_eq (pkp : Fin 17 → Pt) (pconf : Fin 17 → ℚ) :
    console_risks CONF_THRESH pkp pconf .R_Hip = analyze_person_risks pkp pconf .R_Hip := by
  simp only [console_risks, analyze_person_risks, console_kp_eq, console_angle_eq]
  cases kpSel pkp pconf 6 <;> cases kpSel pkp pconf 12 <;> cases kpSel pkp pconf 14 <;> rfl

lemma console_Trunk_eq (pkp : Fin 17 → Pt) (pconf : Fin 17 → ℚ) :
    console_risks CONF_THRESH pkp pconf .Trunk = analyze_person_risks pkp pconf .Trunk := by
  simp only [console_risks, analyze_person_risks, console_kp_eq]
  cases kpSel pkp pconf 5 with
  | none => rfl
  | some ls =>
    cases kpSel pkp pconf 6 with
    | none => rfl
    | some rs =>
      cases kpSel pkp pconf 11 with
      | none => rfl
      | some lh =>
        cases kpSel pkp pconf 12 with
        | none => rfl
        | some rh =>
          simp only [console_lean_eq]
          rfl

set_option maxHeartbeats 2000000 in
lemma comp_agree_abstract (cr ar : Factor → Option ℕ)
    (h1 : cr .L_ACL = ar .L_ACL) (h2 : cr .R_ACL = ar .R_ACL)
    (h3 : cr .L_Hip = ar .L_Hip) (h4 : cr .R_Hip = ar .R_Hip) (h5 : cr .Trunk = ar .Trunk)
    (hS2 : cr .Shoulder_Asym = none) (hH2 : cr .Hip_Asym = none)
    (hLA2 : cr .L_Ankle = none) (hRA2 : cr .R_Ankle = none)
    (hS : ar .Shoulder_Asym = none) (hH : ar .Hip_Asym = none)
    (hLA : ar .L_Ankle = none) (hRA : ar .R_Ankle = none) :
    (min (if 0 < ((FACTORS.filterMap fun f =>
          match cr f, console_weights f with
          | some _, some w => some w
          | _, _ => none).sum : ℚ) then
        pyInt (((FACTORS.filterMap fun f =>
            match cr f, console_weights f with
            | some r, some w => some ((r : ℚ) * w)
            | _, _ => none).sum)
          / ((FACTORS.filterMap fun f =>
            match cr f, console_weights f with
            | some _, some w => some w
            | _, _ => none).sum))
      else 0) 100)
      = compositeScore ar := by
  simp only [FACTORS, List.filterMap_cons, List.filterMap_nil]
  rw [h1, h2, h3, h4, h5, hS2, hH2, hLA2, hRA2]
  simp only [compositeScore, FACTORS, List.filterMap_cons, List.filterMap_nil]
  rw [hS, hH, hLA, hRA]
  cases hA : ar Factor.L_ACL <;>
    cases hB : ar Factor.R_ACL <;>
    cases hC : ar Factor.L_Hip <;>
    cases hD : ar Factor.R_Hip <;>
    cases hE : ar Factor.Trunk <;>
    norm_num [console_weights, weights, pyInt]

lemma console_comp_eq_of_extras_absent (pkp : Fin 17 → Pt) (pconf : Fin 17 → ℚ)
    (hS : analyze_person_risks pkp pconf .Shoulder_Asym = none)
    (hH : analyze_person_risks pkp pconf .Hip_Asym = none)
    (hLA : analyze_person_risks pkp pconf .L_Ankle = none)
    (hRA : analyze_person_risks pkp pconf .R_Ankle = none) :
    console_comp CONF_THRESH pkp pconf = compositeScore (analyze_person_risks pkp pconf) :=
  comp_agree_abstract (console_risks CONF_THRESH pkp pconf) (analyze_person_risks pkp pconf)
    (console_L_ACL_eq pkp pconf) (console_R_ACL_eq pkp pconf) (console_L_Hip_eq pkp pconf)
    (console_R_Hip_eq pkp pconf) (console_Trunk_eq pkp pconf) rfl rfl rfl rfl hS hH hLA hRA

/-- C6 (amended): the console and the backend agree factor-by-factor on the
five shared factors for every pose at the common threshold, and the
composites agree whenever the backend's extra factors (asymmetries, ankles)
are absent. -/
theorem console_backend_shared_factor_agreement :
    (∀ (person_kp : Fin 17 → Pt) (person_conf : Fin 17 → ℚ),
        console_risks CONF_THRESH person_kp person_conf .L_ACL
            = analyze_person_risks person_kp person_conf .L_ACL
        ∧ console_risks CONF_THRESH person_kp person_conf .R_ACL
            = analyze_person_risks person_kp person_conf .R_ACL
        ∧ console_risks CONF_THRESH person_kp person_conf .L_Hip
            = analyze_person_risks person_kp person_conf .L_Hip
        ∧ console_risks CONF_THRESH person_kp person_conf .R_Hip
            = analyze_person_risks person_kp person_conf .R_Hip
        ∧ console_risks CONF_THRESH person_kp person_conf .Trunk
            = analyze_person_risks person_kp person_conf .Trunk)
  ∧ (∀ (person_kp : Fin 17 → Pt) (person_conf : Fin 17 → ℚ),
        analyze_person_risks person_kp person_conf .Shoulder_Asym = none →
        analyze_person_risks person_kp person_conf .Hip_Asym = none →
        analyze_person_risks person_kp person_conf .L_Ankle = none →
        analyze_person_risks person_kp person_conf .R_Ankle = none →
        console_comp CONF_THRESH person_kp person_conf
          = compositeScore (analyze_person_risks person_kp person_conf)) :=
  ⟨fun pkp pconf =>
    ⟨console_L_ACL_eq pkp pconf, console_R_ACL_eq pkp pconf, console_L_Hip_eq pkp pconf,
     console_R_Hip_eq pkp pconf, console_Trunk_eq pkp pconf⟩,
   console_comp_eq_of_extras_absent⟩

/-- A pose with only the left shoulder, left hip and left knee usable. -/
def partialPoseKp : Fin 17 → Pt := fun i =>
  if i = 5 ∨ i = 11 ∨ i = 13 then (10, 10) else (1, 1)

/-- Confidence 1 on the three usable keypoints, 0 elsewhere. -/
def partialPoseConf : Fin 17 → ℚ := fun i =>
  if i = 5 ∨ i = 11 ∨ i = 13 then 1 else 0

lemma partial_kpSel_unusable (i : Fin 17)
    (h : ¬(i = 5 ∨ i = 11 ∨ i = 13)) :
    kpSel partialPoseKp partialPoseConf i = none := by
  rw [kpSel, if_neg]
  intro hc
  rw [partialPoseConf, if_neg h] at hc
  norm_num [CONF_THRESH] at hc

lemma partial_extras_absent :
    analyze_person_risks partialPoseKp partialPoseConf .Shoulder_Asym = none
    ∧ analyze_person_risks partialPoseKp partialPoseConf .Hip_Asym = none
    ∧ analyze_person_risks partialPoseKp partialPoseConf .L_Ankle = none
    ∧ analyze_person_risks partialPoseKp partialPoseConf .R_Ankle = none := by
  have h6 := partial_kpSel_unusable 6 (by decide)
  have h12 := partial_kpSel_unusable 12 (by decide)
  have h15 := partial_kpSel_unusable 15 (by decide)
  refine ⟨?_, ?_, ?_, ?_⟩
  · simp only [analyze_person_risks, h6]
    cases kpSel partialPoseKp partialPoseConf 5 <;> rfl
  · simp only [analyze_person_risks, h12]
    cases kpSel partialPoseKp partialPoseConf 11 <;> rfl
  · simp only [analyze_person_risks, h15]
    cases kpSel partialPoseKp partialPoseConf 13 <;> rfl
  · have h16 := partial_kpSel_unusable 16 (by decide)
    simp only [analyze_person_risks, h16]
    cases kpSel partialPoseKp partialPoseConf 14 <;> rfl

/-- Witness for the composite-agreement conjunct of C6, at a pose where the
backend's extra factors are all absent. -/
theorem console_backend_agreement_witness :
    console_comp CONF_THRESH partialPoseKp partialPoseConf
      = compositeScore (analyze_person_risks partialPoseKp partialPoseConf) :=
  console_backend_shared_factor_agreement.2 partialPoseKp partialPoseConf
    partial_extras_absent.1 partial_extras_absent.2.1
    partial_extras_absent.2.2.1 partial_extras_absent.2.2.2

/-- A pose with every keypoint usable: shoulders at different heights, the
left hip/knee/ankle coincident, the right hip/knee/ankle coincident. -/
def mixedPoseKp : Fin 17 → Pt := fun i =>
  if i = 5 then (10, 10)
  else if i = 6 then (20, 60)
  else if i = 11 ∨ i = 13 ∨ i = 15 then (30, 30)
  else if i = 12 ∨ i = 14 ∨ i = 16 then (30, 40)
  else (1, 1)

/-- Full confidence everywhere for the mixed pose. -/
def mixedPoseConf : Fin 17 → ℚ := fun _ => 1

lemma mixed_kpSel5 : kpSel mixedPoseKp mixedPoseConf 5 = some (10, 10) := by
  norm_num [kpSel, mixedPoseKp, mixedPoseConf, CONF_THRESH, is_visible] <;> decide

lemma mixed_kpSel6 : kpSel mixedPoseKp mixedPoseConf 6 = some (20, 60) := by
  norm_num [kpSel, mixedPoseKp, mixedPoseConf, CONF_THRESH, is_visible] <;> decide

lemma mixed_kpSel11 : kpSel mixedPoseKp mixedPoseConf 11 = some (30, 30) := by
  norm_num [kpSel, mixedPoseKp, mixedPoseConf, CONF_THRESH, is_visible] <;> decide

lemma mixed_kpSel12 : kpSel mixedPoseKp mixedPoseConf 12 = some (30, 40) := by
  norm_num [kpSel, mixedPoseKp, mixedPoseConf, CONF_THRESH, is_visible] <;> decide

lemma mixed_kpSel13 : kpSel mixedPoseKp mixedPoseConf 13 = some (30, 30) := by
  norm_num [kpSel, mixedPoseKp, mixedPoseConf, CONF_THRESH, is_visible] <;> decide

lemma mixed_kpSel14 : kpSel mixedPoseKp mixedPoseConf 14 = some (30, 40) := by
  norm_num [kpSel, mixedPoseKp, mixedPoseConf, CONF_THRESH, is_visible] <;> decide

lemma mixed_kpSel15 : kpSel mixedPoseKp mixedPoseConf 15 = some (30, 30) := by
  norm_num [kpSel, mixedPoseKp, mixedPoseConf, CONF_THRESH, is_visible] <;> decide

lemma mixed_kpSel16 : kpSel mixedPoseKp mixedPoseConf 16 = some (30, 40) := by
  norm_num [kpSel, mixedPoseKp, mixedPoseConf, CONF_THRESH, is_visible] <;> decide

lemma mixed_backend_risks :
    analyze_person_risks mixedPoseKp mixedPoseConf = fun f =>
      match f with
      | .L_ACL => some 0
      | .R_ACL => some 0
      | .L_Hip => some 0
      | .R_Hip => some 0
      | .Trunk => some 0
      | .Shoulder_Asym => some 70
      | .Hip_Asym => some 0
      | .L_Ankle => some 60
      | .R_Ankle => some 60 := by
  funext f
  cases f
  case L_ACL =>
    simp only [analyze_person_risks, mixed_kpSel11, mixed_kpSel13, mixed_kpSel15]
    rw [calculate_angle_left_zero _ _ _ rfl]
    norm_num [aclRisk]
  case R_ACL =>
    simp only [analyze_person_risks, mixed_kpSel12, mixed_kpSel14, mixed_kpSel16]
    rw [calculate_angle_left_zero _ _ _ rfl]
    norm_num [aclRisk]
  case L_Hip =>
    simp only [analyze_person_risks, mixed_kpSel5, mixed_kpSel11, mixed_kpSel13]
    rw [calculate_angle_right_zero _ _ _ rfl]
    norm_num [hipRisk]
  case R_Hip =>
    simp only [analyze_person_risks, mixed_kpSel6, mixed_kpSel12, mixed_kpSel14]
    rw [calculate_angle_right_zero _ _ _ rfl]
    norm_num [hipRisk]
  case Trunk =>
    simp only [analyze_person_risks, mixed_kpSel5, mixed_kpSel6, mixed_kpSel11, mixed_kpSel12]
    have hlean : trunk_lean_angle ((10 + 20) / 2, (10 + 60) / 2) ((30 + 30) / 2, (30 + 40) / 2)
        = 0 := by
      rw [trunk_lean_angle, if_pos]
      norm_num
    rw [hlean]
    norm_num [trunkRisk]
  case Shoulder_Asym =>
    simp only [analyze_person_risks, mixed_kpSel5, mixed_kpSel6]
    norm_num [asymRisk]
  case Hip_Asym =>
    simp only [analyze_person_risks, mixed_kpSel11, mixed_kpSel12]
    norm_num [asymRisk]
  case L_Ankle =>
    simp only [analyze_person_risks, mixed_kpSel13, mixed_kpSel15]
    rw [calculate_angle_left_zero _ _ _ rfl]
    norm_num [ankleRisk]
  case R_Ankle =>
    simp only [analyze_person_risks, mixed_kpSel14, mixed_kpSel16]
    rw [calculate_angle_left_zero _ _ _ rfl]
    norm_num [ankleRisk]

lemma mixed_backend_composite :
    compositeScore (analyze_person_risks mixedPoseKp mixedPoseConf) = 8 := by
  rw [mixed_backend_risks]
  simp [compositeScore, FACTORS]
  norm_num [weights, pyInt]

set_option maxHeartbeats 1000000 in
lemma mixed_console_comp : console_comp CONF_THRESH mixedPoseKp mixedPoseConf = 0 := by
  have hc1 : console_risks CONF_THRESH mixedPoseKp mixedPoseConf .L_ACL = some 0 := by
    rw [console_L_ACL_eq, mixed_backend_risks]
  have hc2 : console_risks CONF_THRESH mixedPoseKp mixedPoseConf .R_ACL = some 0 := by
    rw [console_R_ACL_eq, mixed_backend_risks]
  have hc3 : console_risks CONF_THRESH mixedPoseKp mixedPoseConf .L_Hip = some 0 := by
    rw [console_L_Hip_eq, mixed_backend_risks]
  have hc4 : console_risks CONF_THRESH mixedPoseKp mixedPoseConf .R_Hip = some 0 := by
    rw [console_R_Hip_eq, mixed_backend_risks]
  have hc5 : console_risks CONF_THRESH mixedPoseKp mixedPoseConf .Trunk = some 0 := by
    rw [console_Trunk_eq, mixed_backend_risks]
  have hc6 : console_risks CONF_THRESH mixedPoseKp mixedPoseConf .Shoulder_Asym = none := rfl
  have hc7 : console_risks CONF_THRESH mixedPoseKp mixedPoseConf .Hip_Asym = none := rfl
  have hc8 : console_risks CONF_THRESH mixedPoseKp mixedPoseConf .L_Ankle = none := rfl
  have hc9 : console_risks CONF_THRESH mixedPoseKp mixedPoseConf .R_Ankle = none := rfl
  simp only [console_comp, FACTORS, List.filterMap_cons, List.filterMap_nil,
    hc1, hc2, hc3, hc4, hc5, hc6, hc7, hc8, hc9]
  norm_num [console_weights, pyInt]

/-- C6 counterexample: at the mixed pose all five shared factors are
computable (and agree between the two engines), yet the backend composite is
8 while the console composite is 0 — the backend unavoidably also computes
the asymmetry and ankle factors, so the two front ends do not return
identical composite scores. -/
theorem console_backend_composites_differ :
    analyze_person_risks mixedPoseKp mixedPoseConf .L_ACL = some 0
    ∧ analyze_person_risks mixedPoseKp mixedPoseConf .R_ACL = some 0
    ∧ analyze_person_risks mixedPoseKp mixedPoseConf .L_Hip = some 0
    ∧ analyze_person_risks mixedPoseKp mixedPoseConf .R_Hip = some 0
    ∧ analyze_person_risks mixedPoseKp mixedPoseConf .Trunk = some 0
    ∧ analyze_person_risks mixedPoseKp mixedPoseConf .Shoulder_Asym = some 70
    ∧ compositeScore (analyze_person_risks mixedPoseKp mixedPoseConf) = 8
    ∧ console_comp CONF_THRESH mixedPoseKp mixedPoseConf = 0
    ∧ compositeScore (analyze_person_risks mixedPoseKp mixedPoseConf)
        ≠ console_comp CONF_THRESH mixedPoseKp mixedPoseConf := by
  refine ⟨?_, ?_, ?_, ?_, ?_, ?_, mixed_backend_composite, mixed_console_comp, ?_⟩
  · rw [mixed_backend_risks]
  · rw [mixed_backend_risks]
  · rw [mixed_backend_risks]
  · rw [mixed_backend_risks]
  · rw [mixed_backend_risks]
  · rw [mixed_backend_risks]
  · rw [mixed_backend_composite, mixed_console_comp]
    norm_num

/-- One sampled keypoint of the `pose_keypoints` record (`main.py` lines
342-348). -/
structure KeypointSample where
  x : ℚ
  y : ℚ
  confidence : ℚ
  name : String
deriving DecidableEq, Repr

/-- The fields of a `done` Analysis record (`main.py` lines 470-486). -/
structure AnalysisDone where
  videoId : String
  sport : String
  playerName : String
  overallRisk : ℤ
  overallSeverity : String
  duration : String
  fps : ℤ
  risks : List RiskEvent
  pose_keypoints : List (List KeypointSample)
  suggestions : List String
  riskTimeline : List ℤ
  annotatedVideoUrl : String
  totalFrames : ℕ
  peakRisk : ℤ
deriving Repr

/-- An entry of the Analysis Store: `processing` placeholder, terminal
`error`, or terminal `done` (`main.py` lines 288, 470, 491, 510). -/
inductive Analysis
  | processing (videoId : String)
  | error (videoId : String) (error : String)
  | done (record : AnalysisDone)

/-- The chat endpoint's response model (`main.py` lines 52-55). -/
structure ChatResponse where
  reply : String
  confidence : ℚ
  relatedTimestamp : Option String
deriving DecidableEq, Repr

/-- Python `kw in text` on strings: substring containment. -/
def strContains (text kw : String) : Bool := decide (kw.toList <:+: text.toList)

/-- The body-part keyword sets of `chat_with_ai` (`main.py` lines 543-549). -/
def part_keywords : List (String × List String) :=
  [("knee", ["knee", "acl", "valgus"]),
   ("hip", ["hip"]),
   ("lower_back", ["back", "lumbar", "spine", "trunk"]),
   ("shoulder", ["shoulder", "rotation"]),
   ("ankle", ["ankle", "dorsiflexion"])]

/-- The inner matching loop of `chat_with_ai` (`main.py` lines 551-556):
an event matches when its part's keyword set intersects the question. -/
def matchesQuery (text : String) (risk : RiskEvent) : Bool :=
  part_keywords.any fun pk => risk.part == pk.1 && pk.2.any fun kw => strContains text kw

/-- Python `max(list, key=lambda x: x["risk"])`: first maximum wins ties. -/
def pyMaxByRisk (head : RiskEvent) (rest : List RiskEvent) : RiskEvent :=
  rest.foldl (fun best e => if best.risk < e.risk then e else best) head

/-- Python `str.title()` for the space-separated part names used here. -/
def pyTitleWord (w : String) : String :=
  match w.toList with
  | [] => ""
  | c :: cs => String.mk (c.toUpper :: cs.map Char.toLower)

/-- The replace-underscores-then-title composition used for part names. -/
def pyTitle (s : String) : String :=
  String.intercalate " " ((s.splitOn " ").map pyTitleWord)

/-- The fixed reply of the not-yet-done branch of `chat_with_ai`
(`main.py` line 535). -/
def PROCESSING_REPLY : String :=
  "⏳ The analysis is still processing. Please wait for it to complete before asking questions."

/-- The part-match branch of `chat_with_ai` (`main.py` lines 558-570). -/
def chatPartReply (risks : List RiskEvent) (top : RiskEvent) : ChatResponse :=
  let part_name := pyTitle (top.part.replace "_" " ")
  let reply1 :=
    "🔍 **" ++ part_name ++ " Analysis** — At " ++ top.timestamp
      ++ ", I detected a risk level of **" ++ toString top.risk ++ "% (" ++ top.severity
      ++ ")**.\n\n" ++ top.description
  let reply2 :=
    match top.angle with
    | some a => if a ≠ 0 then reply1 ++ "\n\nMeasured angle deviation: **" ++ toString a ++ "°**."
                else reply1
    | none => reply1
  let related := risks.filter fun r => r.part == top.part && r ≠ top
  let reply3 :=
    if related.length ≠ 0 then
      reply2 ++ "\n\nAdditionally found " ++ toString related.length ++ " other "
        ++ part_name.toLower ++ " event(s) in this session."
    else reply2
  { reply := reply3, confidence := 0.92, relatedTimestamp := some top.timestamp }

/-- The overview branch of `chat_with_ai` (`main.py` lines 572-585). -/
def chatOverviewReply (data : AnalysisDone) : ChatResponse :=
  let risks := data.risks
  let total_events := risks.length
  let high_events :=
    (risks.filter fun r => r.severity == "HIGH" || r.severity == "CRITICAL").length
  let replyA :=
    "📊 **Overall Assessment** — Session risk score: **" ++ toString data.overallRisk
      ++ "% (" ++ data.overallSeverity ++ ")**.\n\nDetected **" ++ toString total_events
      ++ " risk events**, of which **" ++ toString high_events ++ "** are high/critical severity."
  let replyB :=
    match risks with
    | r :: rs =>
      let top := pyMaxByRisk r rs
      replyA ++ "\n\nHighest risk: **" ++ pyTitle (top.part.replace "_" " ") ++ "** at "
        ++ top.timestamp ++ " (" ++ toString top.risk ++ "%)."
    | [] => replyA
  let replyC :=
    if data.suggestions ≠ [] then
      replyB ++ "\n\n**Top Recommendations:**\n"
        ++ String.intercalate "\n" ((data.suggestions.take 3).map fun s => "• " ++ s)
    else replyB
  { reply := replyC, confidence := 0.93, relatedTimestamp := none }

/-- The default branch of `chat_with_ai` (`main.py` lines 587-598). -/
def chatDefaultReply (risks : List RiskEvent) : ChatResponse :=
  match risks with
  | r :: rs =>
    let top := pyMaxByRisk r rs
    { reply :=
        "🤖 I analyzed this session and found **" ++ toString risks.length
          ++ " risk events**. The highest priority is **" ++ top.part.replace "_" " "
          ++ "** at " ++ top.timestamp ++ " (" ++ toString top.risk
          ++ "% risk).\n\nAsk me about any specific body part — knee, hip, shoulder, back, or ankle!",
      confidence := 0.85, relatedTimestamp := none }
  | [] =>
    { reply := "✅ No significant risks were detected in this session. The biomechanics look good! Keep up the great form.",
      confidence := 0.85, relatedTimestamp := none }

/-- The done-state body of `chat_with_ai` (`main.py` lines 539-598). -/
def chatAnswer (data : AnalysisDone) (message : String) : ChatResponse :=
  let text := message.toLower
  let risks := data.risks
  let matched_risks := risks.filter (matchesQuery text)
  match matched_risks with
  | m :: ms => chatPartReply risks (pyMaxByRisk m ms)
  | [] =>
    if strContains text "overall" || strContains text "summary" || strContains text "assessment"
    then chatOverviewReply data
    else chatDefaultReply risks

/-- Endpoint `chat_with_ai(video_id, msg)` (`main.py` lines 529-598) over the Analysis
Store: any missing or not-yet-`done` record gets the fixed processing reply. -/
def chat_with_ai (store : String → Option Analysis) (video_id : String)
    (message : String) : ChatResponse :=
  match store video_id with
  | some (.done data) => chatAnswer data message
  | _ => { reply := PROCESSING_REPLY, confidence := 0.5, relatedTimestamp := none }

/-- C8: when the Analysis is absent or not `done`, the chat endpoint returns
the fixed "still processing" reply with confidence exactly 0.5 and no related
timestamp, for every question; the operation is total (never an error). -/
theorem chat_processing_guard :
    ∀ (store : String → Option Analysis) (video_id message : String),
      (∀ d, store video_id ≠ some (.done d)) →
      chat_with_ai store video_id message
        = { reply := PROCESSING_REPLY, confidence := 0.5, relatedTimestamp := none } := by
  intro store video_id message h
  unfold chat_with_ai
  cases hs : store video_id with
  | none => rfl
  | some a =>
    cases a with
    | processing v => rfl
    | error v e => rfl
    | done d => exact absurd hs (h d)

/-- Witness for C8: the empty store. -/
theorem chat_processing_guard_witness :
    chat_with_ai (fun _ => none) "abc123" "why is my knee at risk?"
      = { reply := PROCESSING_REPLY, confidence := 0.5, relatedTimestamp := none } :=
  chat_processing_guard (fun _ => none) "abc123" "why is my knee at risk?"
    (fun _ h => Option.noConfusion h)

/-- One risk-history point of the player profile (`main.py` lines 626-630). -/
structure RiskHistoryPoint where
  date : String
  risk : ℤ
  label : String
deriving DecidableEq, Repr

/-- One past-session summary of the player profile (`main.py` lines 635-641). -/
structure PastMatch where
  date : String
  opponent : String
  riskScore : ℤ
  status : String
  highlights : String
deriving DecidableEq, Repr

/-- One injury zone of the player profile (`main.py` line 653). -/
structure InjuryZone where
  part : String
  risk : ℕ
  trend : String
deriving DecidableEq, Repr

/-- One recommended drill of the player profile (`main.py` lines 659-681). -/
structure Drill where
  id : ℕ
  name : String
  description : String
  duration : String
  frequency : String
  targetArea : String
  difficulty : String
  riskReduction : ℕ
deriving DecidableEq, Repr

/-- The player profile returned by `get_player` (`main.py` lines 684-695). -/
structure PlayerProfile where
  playerId : ℤ
  name : String
  sport : String
  team : String
  age : ℕ
  position : String
  riskHistory : List RiskHistoryPoint
  pastMatches : List PastMatch
  drills : List Drill
  injuryZones : List InjuryZone
deriving Repr

/-- The `done` projection used by `get_player`'s completed filter
(`main.py` line 605). -/
def doneRecord : Analysis → Option AnalysisDone
  | .done d => some d
  | _ => none

/-- Python `l[-10:]`: the last ten entries. -/
def pyLast10 {α : Type} (l : List α) : List α := l.drop (l.length - 10)

/-- The per-part running `(total_risk, count)` accumulator of `get_player`
(`main.py` lines 642-647), an insertion-ordered dict. -/
def bumpPart (m : List (String × ℕ × ℕ)) (part : String) (risk : ℕ) :
    List (String × ℕ × ℕ) :=
  match m with
  | [] => [(part, risk, 1)]
  | (p, tot, cnt) :: rest =>
    if p = part then (p, tot + risk, cnt + 1) :: rest
    else (p, tot, cnt) :: bumpPart rest part risk

/-- All events of all completed analyses, folded into `injury_counts`. -/
def injuryCounts (completed : List AnalysisDone) : List (String × ℕ × ℕ) :=
  completed.foldl (fun m a => a.risks.foldl (fun m2 r => bumpPart m2 r.part r.risk) m) []

/-- The four-entry drill catalog built from the injury zones
(`main.py` lines 656-681), with sequential ids starting at 1. -/
def buildDrills (injury_zones : List InjuryZone) : List Drill :=
  let acc0 : List Drill × ℕ := ([], 1)
  let acc1 :=
    if injury_zones.any fun z => z.part == "knee" then
      (acc0.1 ++
        [{ id := acc0.2, name := "Single-Leg Squat Stabilizer",
           description := "Strengthen VMO and glute medius to correct knee valgus pattern.",
           duration := "15 min", frequency := "Daily", targetArea := "Knee",
           difficulty := "Intermediate", riskReduction := 23 }],
       acc0.2 + 1)
    else acc0
  let acc2 :=
    if injury_zones.any fun z => z.part == "shoulder" then
      (acc1.1 ++
        [{ id := acc1.2, name := "Rotator Cuff Band Series",
           description := "External/internal rotation with resistance band for shoulder stability.",
           duration := "10 min", frequency := "Pre-session", targetArea := "Shoulder",
           difficulty := "Beginner", riskReduction := 15 }],
       acc1.2 + 1)
    else acc1
  let acc3 :=
    if injury_zones.any fun z => z.part == "lower_back" then
      (acc2.1 ++
        [{ id := acc2.2, name := "Anti-Extension Core Circuit",
           description := "Dead bugs, pallof press, and bird-dogs for lumbar stability.",
           duration := "20 min", frequency := "3x/week", targetArea := "Lower Back",
           difficulty := "Advanced", riskReduction := 19 }],
       acc2.2 + 1)
    else acc2
  let acc4 :=
    if injury_zones.any fun z => z.part == "hip" then
      (acc3.1 ++
        [{ id := acc3.2, name := "Hip Mobility & Activation",
           description := "Banded hip circles, clamshells, and hip flexor stretches.",
           duration := "12 min", frequency := "Daily", targetArea := "Hip",
           difficulty := "Beginner", riskReduction := 18 }],
       acc3.2 + 1)
    else acc3
  acc4.1

/-- Endpoint `get_player(player_id)` (`main.py` lines 601-695) over the Analysis
Store in iteration order: the placeholder profile when no analysis is done,
otherwise the aggregated history, injury zones and drills. -/
def get_player (store : List Analysis) (player_id : ℤ) : PlayerProfile :=
  let completed := store.filterMap doneRecord
  match completed with
  | [] =>
    { playerId := player_id, name := "Athlete", sport := "General", team := "—", age := 0,
      position := "—", riskHistory := [], pastMatches := [], drills := [], injuryZones := [] }
  | c :: cs =>
    let risk_history := (c :: cs).enum.map fun p =>
      { date := "Session " ++ toString (p.1 + 1), risk := p.2.overallRisk,
        label := "Session " ++ toString (p.1 + 1) : RiskHistoryPoint }
    let past_matches := (c :: cs).enum.map fun p =>
      let top_risk_desc :=
        match p.2.risks with
        | [] => ""
        | r :: rs =>
          let top := pyMaxByRisk r rs
          pyTitle (top.part.replace "_" " ") ++ " risk " ++ toString top.risk ++ "%"
      { date := "Session " ++ toString (p.1 + 1), opponent := p.2.sport,
        riskScore := p.2.overallRisk, status := "Completed",
        highlights := if top_risk_desc ≠ "" then top_risk_desc else "Analysis complete"
        : PastMatch }
    let injury_zones := (injuryCounts (c :: cs)).map fun pc =>
      let avg := pc.2.1 / pc.2.2
      { part := pc.1, risk := avg,
        trend := if 50 < avg then "increasing" else if 30 < avg then "stable" else "decreasing"
        : InjuryZone }
    let drills := buildDrills injury_zones
    let latest := cs.getLastD c
    { playerId := player_id, name := latest.playerName, sport := latest.sport, team := "—",
      age := 0, position := "—", riskHistory := pyLast10 risk_history,
      pastMatches := pyLast10 past_matches, drills := drills, injuryZones := injury_zones }

/-- C9: with no completed analysis in the store, the player profile has empty
riskHistory, pastMatches, drills and injuryZones, and placeholder identity
fields, for any requested player id. -/
theorem player_profile_empty_store :
    ∀ (store : List Analysis) (player_id : ℤ),
      (∀ a ∈ store, doneRecord a = none) →
      get_player store player_id
        = { playerId := player_id, name := "Athlete", sport := "General", team := "—",
            age := 0, position := "—", riskHistory := [], pastMatches := [], drills := [],
            injuryZones := [] } := by
  intro store player_id h
  have hc : store.filterMap doneRecord = [] := List.filterMap_eq_nil.mpr h
  unfold get_player
  rw [hc]

/-- Witness for C9: the empty store and an error-state store entry. -/
theorem player_profile_empty_store_witness :
    get_player [Analysis.processing "a1", Analysis.error "a2" "boom"] 7
      = { playerId := 7, name := "Athlete", sport := "General", team := "—",
          age := 0, position := "—", riskHistory := [], pastMatches := [], drills := [],
          injuryZones := [] } :=
  player_profile_empty_store [Analysis.processing "a1", Analysis.error "a2" "boom"] 7
    (by
      intro a ha
      rcases List.mem_cons.mp ha with rfl | ha2
      · rfl
      · rcases List.mem_singleton.mp ha2 with rfl
        rfl)
